import Mathlib

/-!
Shallow embedding of the core of `c_http_core` (HTTP/1.1 client transport):
the connection engine (`http11.py`), the body-stream framework (`streams.py`)
and the connection pool (`connection_pool.py`), together with theorems about
the claims of the specification.
-/

namespace CHttpCore

/-! ## Connection engine state (`http11.py`) -/

/-- Models `ConnectionState` (`http11.py`, lines 29-34). -/
inductive ConnectionState
  | new
  | active
  | idle
  | closed
deriving DecidableEq, Repr

/-- Models the `their_state` of the embedded `h11.Connection` parser, restricted
to the states the engine inspects: `IDLE` (after `start_next_cycle`),
`SEND_BODY` (peer mid-body), `DONE` (response fully parsed) and `CLOSED`
(peer close observed). -/
inductive H11TheirState
  | idle
  | sendBody
  | done
  | closed
deriving DecidableEq, Repr

/-- Models an `HTTP11Connection` (`http11.py`, lines 52-90): protocol state,
the h11 parser state it consults, the `_request_count` / `_max_requests`
counters, the `_bytes_sent` metric, `_idle_since`, and whether
`self._stream.aclose()` has been invoked.  `theyClosed = none` models the
absence of the `they_closed` attribute probed with `hasattr` in
`_can_reuse_connection`. -/
structure Conn where
  state : ConnectionState
  theirState : H11TheirState
  theyClosed : Option Bool
  requestCount : Nat
  maxRequests : Nat
  bytesSent : Nat
  idleSince : Option Nat
  streamClosed : Bool
deriving DecidableEq, Repr

/-- Models `HTTP11Connection._can_reuse_connection` (`http11.py`, lines
358-373): reuse requires `their_state == DONE`; if the parser object has a
`they_closed` attribute, the peer must not have closed. -/
def canReuseConnection (c : Conn) : Bool :=
  if c.theirState ≠ H11TheirState.done then false
  else
    match c.theyClosed with
    | some b => !b
    | none => true

/-- Models `HTTP11Connection._release_connection` (`http11.py`, lines 343-356):
from `ACTIVE`, move to `IDLE` (recording `_idle_since` and restarting the
parser cycle) when `_can_reuse_connection()` holds, otherwise move to `CLOSED`
and close the transport.  In any other state, do nothing. -/
def releaseConnection (c : Conn) (now : Nat) : Conn :=
  if c.state = ConnectionState.active then
    if canReuseConnection c then
      { c with state := ConnectionState.idle,
               idleSince := some now,
               theirState := H11TheirState.idle }
    else
      { c with state := ConnectionState.closed, streamClosed := true }
  else c

/-- Models `HTTP11Connection._response_closed` (`http11.py`, lines 375-379),
which simply delegates to `_release_connection`. -/
def responseClosed (c : Conn) (now : Nat) : Conn :=
  releaseConnection c now

/-- Models `HTTP11Connection.close` (`http11.py`, lines 381-390).  The `Bool`
component records whether `self._stream.aclose()` was invoked by this call. -/
def connClose (c : Conn) : Conn × Bool :=
  if c.state ≠ ConnectionState.closed then
    ({ c with state := ConnectionState.closed, streamClosed := true }, true)
  else (c, false)

/-- Error kinds raised on the entry path of `handle_request`:
`ConnectionError("Connection exceeded max requests ...")`,
`ConnectionError("Connection is closed")` and
`ConnectionError("Connection is busy")`. -/
inductive HTTPError
  | maxRequestsExceeded
  | connectionClosedErr
  | connectionBusy
deriving DecidableEq, Repr

/-- Outcome of the entry path of `handle_request`: either the call aborts with
an error before `_send_request` is ever reached (so no request bytes are
written), or control proceeds to the send/receive phase. -/
inductive EntryResult
  | failed (e : HTTPError)
  | proceed
deriving DecidableEq, Repr

/-- Models the entry path of `HTTP11Connection.handle_request` (`http11.py`,
lines 112-124 together with the exception handler at lines 153-163): the
request counter is incremented first; then the max-requests cap is checked
(closing the connection and raising on violation); then `_acquire_connection`
(lines 327-341) raises on `CLOSED` or `ACTIVE` — an exception the generic
handler turns into `state = CLOSED` plus a transport close — and otherwise
sets the state to `ACTIVE` and proceeds to `_send_request`. -/
def handleRequestEntry (c : Conn) : Conn × EntryResult :=
  let c1 : Conn := { c with requestCount := c.requestCount + 1 }
  if c1.maxRequests < c1.requestCount then
    ((connClose c1).1, EntryResult.failed HTTPError.maxRequestsExceeded)
  else if c1.state = ConnectionState.closed then
    ({ c1 with state := ConnectionState.closed, streamClosed := true },
     EntryResult.failed HTTPError.connectionClosedErr)
  else if c1.state = ConnectionState.active then
    ({ c1 with state := ConnectionState.closed, streamClosed := true },
     EntryResult.failed HTTPError.connectionBusy)
  else
    ({ c1 with state := ConnectionState.active }, EntryResult.proceed)

/-! ## Byte strings and Python `int()` parsing

Byte strings are modelled as lists of byte values (`List Nat`). -/

/-- ASCII whitespace accepted by Python's `int()` on `bytes`
(space, tab, LF, VT, FF, CR). -/
def isPyWhitespace (b : Nat) : Bool :=
  b = 32 || b = 9 || b = 10 || b = 11 || b = 12 || b = 13

/-- ASCII decimal digit. -/
def isAsciiDigit (b : Nat) : Bool :=
  decide (48 ≤ b) && decide (b ≤ 57)

/-- Digit-run parser used by `pyIntParse`: a non-empty run of decimal digits
in which a single underscore (byte 95) may appear between two digits, as
Python's `int()` accepts.  The accumulator is `none` until the first digit has
been read. -/
def parseDigits : List Nat → Option Nat → Option Nat
  | [], acc => acc
  | b :: rest, acc =>
    if isAsciiDigit b then
      parseDigits rest (some ((acc.getD 0) * 10 + (b - 48)))
    else if b = 95 then
      match acc, rest with
      | some a, c :: _ => if isAsciiDigit c then parseDigits rest (some a) else none
      | _, _ => none
    else none

/-- Strip leading and trailing ASCII whitespace. -/
def stripPyWhitespace (s : List Nat) : List Nat :=
  ((s.dropWhile isPyWhitespace).reverse.dropWhile isPyWhitespace).reverse

/-- Models Python's `int(value)` on a byte string in base 10: optional
surrounding ASCII whitespace, an optional `+`/`-` sign, then a digit run
(underscore grouping allowed).  `none` models a raised `ValueError`. -/
def pyIntParse (s : List Nat) : Option Int :=
  match stripPyWhitespace s with
  | 43 :: rest => (parseDigits rest none).map Int.ofNat
  | 45 :: rest => (parseDigits rest none).map (fun n => -(Int.ofNat n))
  | s1 => (parseDigits s1 none).map Int.ofNat

/-- ASCII lowering of one byte, as in Python's `bytes.lower()`. -/
def byteLower (b : Nat) : Nat :=
  if 65 ≤ b ∧ b ≤ 90 then b + 32 else b

/-- `bytes.lower()` on a byte string. -/
def bytesLower (s : List Nat) : List Nat :=
  s.map byteLower

/-- The byte string `content-length`. -/
def contentLengthBytes : List Nat :=
  [99, 111, 110, 116, 101, 110, 116, 45, 108, 101, 110, 103, 116, 104]

/-- The byte string `transfer-encoding`. -/
def transferEncodingBytes : List Nat :=
  [116, 114, 97, 110, 115, 102, 101, 114, 45, 101, 110, 99, 111, 100, 105, 110, 103]

/-- The byte string `chunked`. -/
def chunkedBytes : List Nat :=
  [99, 104, 117, 110, 107, 101, 100]

/-- Models `HTTP11Connection._get_content_length` (`http11.py`, lines
294-310): scan the headers for the first name whose ASCII-lowered form is
`content-length` and apply `int(value)`; a `ValueError` in `int` yields
`None`, and so does absence of the header. -/
def getContentLength : List (List Nat × List Nat) → Option Int
  | [] => none
  | (name, value) :: rest =>
    if bytesLower name = contentLengthBytes then pyIntParse value
    else getContentLength rest

/-- Models `HTTP11Connection._is_chunked` (`http11.py`, lines 312-325). -/
def isChunked : List (List Nat × List Nat) → Bool
  | [] => false
  | (name, value) :: rest =>
    if bytesLower name = transferEncodingBytes ∧ bytesLower value = chunkedBytes then
      true
    else isChunked rest

/-! ## Body streams (`streams.py`) -/

/-- `ValueError`s raised by the stream constructors: the negative
`content_length` check and the actual-vs-declared length mismatch check. -/
inductive PyError
  | valueErrorNegativeLength
  | valueErrorLengthMismatch
deriving DecidableEq, Repr

/-- The three shapes of data a `RequestStream` is built over (`streams.py`,
line 65): a single byte buffer, a list of buffers, or a user-supplied async
iterable whose length cannot be computed up front. -/
inductive ReqData
  | bytes (b : List Nat)
  | list (bs : List (List Nat))
  | asyncIterable
deriving DecidableEq, Repr

/-- Models `RequestStream._calculate_actual_length` (`streams.py`, lines
97-105): the buffer length, the sum of buffer lengths, or `-1` for an async
iterable. -/
def calculateActualLength : ReqData → Int
  | ReqData.bytes b => Int.ofNat b.length
  | ReqData.list bs => Int.ofNat (bs.map List.length).sum
  | ReqData.asyncIterable => -1

/-- Models a constructed `RequestStream` (`streams.py`, lines 63-95). -/
structure RequestStream where
  data : ReqData
  contentLength : Option Int
  chunked : Bool
  closed : Bool
  hasIterator : Bool
deriving DecidableEq, Repr

/-- Models `RequestStream.__init__` (`streams.py`, lines 63-95): reject a
negative `content_length`, compute the actual length of the data, and reject
when a provided `content_length` differs from the actual length (which is
`-1`, hence never equal, for an async iterable). -/
def requestStreamInit (data : ReqData) (contentLength : Option Int)
    (chunked : Bool) : Except PyError RequestStream :=
  match contentLength with
  | some l =>
    if l < 0 then Except.error PyError.valueErrorNegativeLength
    else if calculateActualLength data ≠ l then
      Except.error PyError.valueErrorLengthMismatch
    else
      Except.ok { data := data, contentLength := some l, chunked := chunked,
                  closed := false, hasIterator := false }
  | none =>
    Except.ok { data := data, contentLength := none, chunked := chunked,
                closed := false, hasIterator := false }

/-- Models `RequestStream.aclose` (`streams.py`, lines 171-174): set the
closed flag and drop the iterator; no transport is touched and no error is
ever raised. -/
def requestStreamAclose (s : RequestStream) : RequestStream :=
  { s with closed := true, hasIterator := false }

/-- Models a `ResponseStream` (`streams.py`, lines 201-228): declared length,
chunked flag, closed flag and the running `_bytes_read` counter.  The
informational `encoding` field plays no role in any behaviour modelled here
and is omitted. -/
structure ResponseStream where
  contentLength : Option Int
  chunked : Bool
  closed : Bool
  bytesRead : Nat
deriving DecidableEq, Repr

/-- Models `ResponseStream.__init__` (`streams.py`, lines 201-228): a negative
`content_length` raises `ValueError`; otherwise the stream starts open with
`bytes_read = 0`. -/
def responseStreamInit (contentLength : Option Int) (chunked : Bool) :
    Except PyError ResponseStream :=
  match contentLength with
  | some l =>
    if l < 0 then Except.error PyError.valueErrorNegativeLength
    else
      Except.ok { contentLength := some l, chunked := chunked,
                  closed := false, bytesRead := 0 }
  | none =>
    Except.ok { contentLength := none, chunked := chunked,
                closed := false, bytesRead := 0 }

/-- Models the response-head step of `HTTP11Connection._receive_response`
(`http11.py`, lines 242-254): the `ResponseStream` is constructed from
`_get_content_length` and `_is_chunked` applied to the response headers. -/
def receiveResponseStreamInit (headers : List (List Nat × List Nat)) :
    Except PyError ResponseStream :=
  responseStreamInit (getContentLength headers) (isChunked headers)

/-- The h11 event the engine's `_receive_body_chunk` loop settles on for one
body pull (`http11.py`, lines 259-292): a `Data` chunk, `EndOfMessage`, or
`ConnectionClosed`. -/
inductive BodyEvent
  | data (chunk : List Nat)
  | endOfMessage
  | connectionClosed
deriving DecidableEq, Repr

/-- Result of one `ResponseStream.__anext__` call (`streams.py`, lines
244-290): a returned chunk, a propagated `StopAsyncIteration`, the
`StreamError` raised on an already-closed stream before the engine is
involved (line 246-247), the `StreamError` raised by the generic handler
(lines 287-290) wrapping the `TypeError` from `next()` on a non-iterator
(line 267), or the engine's `ProtocolError` escaping uncaught from the
`await` at line 253, which sits outside the `try` block. -/
inductive AnextResult
  | chunk (data : List Nat)
  | stopIteration
  | streamClosedError
  | wrappedTypeError
  | protocolErrorEscaped
deriving DecidableEq, Repr

/-- Models the first `ResponseStream.__anext__` call after `__aiter__`
(`streams.py`, lines 244-290) composed with the engine pull it drives
(`_receive_body_chunk`, `http11.py`, lines 259-292).  A closed stream raises
before the engine is touched.  Otherwise line 253 awaits `_iterator_coro` —
that is, it runs one `_receive_body_chunk()` call, outside the `try` block —
and stores the result (a `bytes` chunk for a `Data` event, `None` for
`EndOfMessage`) in `self._iterator`.  Neither `bytes` nor `None` has
`__aiter__`, so control reaches `chunk = next(self._iterator)` at line 267,
which raises `TypeError`; the generic handler at lines 287-290 then calls
`_response_closed()` and raises a `StreamError` wrapping it.  Consequently
`_bytes_read` is never advanced and the over-length check at lines 274-279 is
unreachable through the real engine.  On a `ConnectionClosed` event the
`ProtocolError` raised inside `_receive_body_chunk` escapes from line 253
before the `try`, so `_response_closed()` is never called and the connection
is left as it was. -/
def responseStreamAnext (rs : ResponseStream) (c : Conn) (ev : BodyEvent)
    (now : Nat) : ResponseStream × Conn × AnextResult :=
  if rs.closed then (rs, c, AnextResult.streamClosedError)
  else
    match ev with
    | BodyEvent.data _ =>
      let c1 : Conn := { c with theirState := H11TheirState.sendBody }
      (rs, responseClosed c1 now, AnextResult.wrappedTypeError)
    | BodyEvent.endOfMessage =>
      let c1 : Conn := { c with theirState := H11TheirState.done }
      (rs, responseClosed c1 now, AnextResult.wrappedTypeError)
    | BodyEvent.connectionClosed =>
      let c1 : Conn := { c with theirState := H11TheirState.closed }
      (rs, c1, AnextResult.protocolErrorEscaped)

/-- Models `ResponseStream.aclose` (`streams.py`, lines 303-308): when the
stream is not yet closed, set the flag and signal `_response_closed()` on the
owning connection; otherwise do nothing.  The `Bool` component records whether
the engine was signalled by this call. -/
def responseStreamAclose (rs : ResponseStream) (c : Conn) (now : Nat) :
    ResponseStream × Conn × Bool :=
  if rs.closed then (rs, c, false)
  else ({ rs with closed := true }, responseClosed c now, true)

/-! ## Connection pool (`connection_pool.py`) -/

/-- The view of a pooled connection the pool consults: an identity, its
protocol state, and its `_idle_since` timestamp. -/
structure PoolConn where
  id : Nat
  state : ConnectionState
  idleSince : Option Nat
deriving DecidableEq, Repr

/-- Models `HTTP11Connection.has_expired` (`http11.py`, lines 402-416): only
an `IDLE` connection with a recorded `_idle_since` can be expired, and it is
expired when its idle age exceeds the timeout. -/
def poolHasExpired (c : PoolConn) (timeout now : Nat) : Bool :=
  match c.idleSince with
  | none => false
  | some t =>
    if c.state = ConnectionState.idle then decide (now - t > timeout) else false

/-- Models `HTTP11Connection.is_idle` (`http11.py`, lines 397-400). -/
def poolIsIdle (c : PoolConn) : Bool :=
  c.state = ConnectionState.idle

/-- Association-list lookup matching `defaultdict(list)` access: a missing
key reads as the empty list. -/
def lookupConns : List (String × List PoolConn) → String → List PoolConn
  | [], _ => []
  | e :: rest, k => if e.1 = k then e.2 else lookupConns rest k

/-- Association-list update matching assignment into the dict (keys are
unique, as in a Python dict). -/
def setConns : List (String × List PoolConn) → String → List PoolConn →
    List (String × List PoolConn)
  | [], k, v => [(k, v)]
  | e :: rest, k, v => if e.1 = k then (k, v) :: rest else e :: setConns rest k v

/-- Models `ConnectionPool` state (`connection_pool.py`, lines 29-69): the
`host:port → connections` map and the configuration the algorithms consult. -/
structure Pool where
  conns : List (String × List PoolConn)
  maxConnections : Nat
  maxPerHost : Nat
  keepAliveTimeout : Nat
  closed : Bool
deriving DecidableEq, Repr

/-- Models `ConnectionPool._get_total_connections` (`connection_pool.py`,
lines 196-198). -/
def totalConnections (p : Pool) : Nat :=
  (p.conns.map (fun e => e.2.length)).sum

/-- Models `ConnectionPool._cleanup_expired_connections` (`connection_pool.py`,
lines 200-218): drop (and close) every expired connection from every host
list. -/
def cleanupExpired (p : Pool) (now : Nat) : Pool :=
  { p with conns := p.conns.map (fun e =>
      (e.1, e.2.filter (fun c => !poolHasExpired c p.keepAliveTimeout now))) }

/-- Result of `ConnectionPool.get_connection`: reuse of an existing idle
connection, creation of a new one, or one of the three `ConnectionError`
failures (pool closed, per-host cap, total cap). -/
inductive GetConnResult
  | reused (c : PoolConn)
  | created (c : PoolConn)
  | errPoolClosed
  | errPerHost
  | errTotal
deriving DecidableEq, Repr

/-- Models `ConnectionPool.get_connection` (`connection_pool.py`, lines
102-167).  Under the lock: read the host's list (`defaultdict` access),
rewrite it without expired entries, return the first idle connection if any;
otherwise fail when the per-host cap is reached; otherwise, when the total
cap is reached, run the global expired-connection cleanup and fail if it is
still reached; otherwise append a freshly created connection (`fresh` stands
for the connection built around the newly connected stream) and return it. -/
def getConnection (p : Pool) (hostKey : String) (now : Nat) (fresh : PoolConn) :
    Pool × GetConnResult :=
  if p.closed then (p, GetConnResult.errPoolClosed)
  else
    let conns := lookupConns p.conns hostKey
    let conns1 := conns.filter (fun c => !poolHasExpired c p.keepAliveTimeout now)
    let p1 : Pool := { p with conns := setConns p.conns hostKey conns1 }
    match conns1.find? poolIsIdle with
    | some c => (p1, GetConnResult.reused c)
    | none =>
      if p.maxPerHost ≤ conns1.length then (p1, GetConnResult.errPerHost)
      else if p.maxConnections ≤ totalConnections p1 then
        let p2 := cleanupExpired p1 now
        if p.maxConnections ≤ totalConnections p2 then (p2, GetConnResult.errTotal)
        else
          let grown := lookupConns p2.conns hostKey ++ [fresh]
          ({ p2 with conns := setConns p2.conns hostKey grown },
           GetConnResult.created fresh)
      else
        ({ p1 with conns := setConns p1.conns hostKey (conns1 ++ [fresh]) },
         GetConnResult.created fresh)

/-- Models `ConnectionPool.return_connection` (`connection_pool.py`, lines
169-194): on a closed pool, do nothing; a closed or non-idle connection is
removed from the host list (first occurrence, as `list.remove`); an idle
connection is simply left where it is — the list is never reordered. -/
def returnConnection (p : Pool) (c : PoolConn) (hostKey : String) : Pool :=
  if p.closed then p
  else
    let conns := lookupConns p.conns hostKey
    if c.state = ConnectionState.closed || !poolIsIdle c then
      { p with conns := setConns p.conns hostKey (conns.erase c) }
    else
      { p with conns := setConns p.conns hostKey conns }

/-- Modelled from the spec: the "most-recently-used idle connection" of an
origin's idle list — the idle connection with the greatest `idle_since`
timestamp — which the spec's fairness sentence says `acquire` must return.
This definition follows the spec's words and exists to be compared with
`getConnection`, which is translated from the source. -/
def specMostRecentlyUsedIdle (conns : List PoolConn) : Option PoolConn :=
  (conns.filter poolIsIdle).foldl (fun acc c =>
    match acc with
    | none => some c
    | some b => if b.idleSince.getD 0 ≤ c.idleSince.getD 0 then some c else some b)
    none

/-! ## Helper lemmas about the association-list pool map -/

theorem lookupConns_setConns (l : List (String × List PoolConn)) (k : String)
    (v : List PoolConn) (k' : String) :
    lookupConns (setConns l k v) k' = if k' = k then v else lookupConns l k' := by
  induction l with
  | nil =>
    by_cases h : k' = k
    · subst h; simp [setConns, lookupConns]
    · rw [show setConns [] k v = [(k, v)] from rfl]
      rw [show lookupConns [(k, v)] k' = if k = k' then v else lookupConns [] k' from rfl]
      rw [if_neg (fun hx : k = k' => h hx.symm), if_neg h]
  | cons e rest ih =>
    by_cases he : e.1 = k
    · by_cases h : k' = k
      · subst h; simp [setConns, he, lookupConns]
      · rw [show setConns (e :: rest) k v = if e.1 = k then (k, v) :: rest
              else e :: setConns rest k v from rfl, if_pos he]
        rw [show lookupConns ((k, v) :: rest) k' =
              if k = k' then v else lookupConns rest k' from rfl]
        rw [if_neg (fun hx : k = k' => h hx.symm), if_neg h]
        rw [show lookupConns (e :: rest) k' =
              if e.1 = k' then e.2 else lookupConns rest k' from rfl]
        rw [if_neg (fun hx : e.1 = k' => h ((hx ▸ he : k' = k)))]
    · rw [show setConns (e :: rest) k v = if e.1 = k then (k, v) :: rest
            else e :: setConns rest k v from rfl, if_neg he]
      rw [show lookupConns (e :: setConns rest k v) k' =
            if e.1 = k' then e.2 else lookupConns (setConns rest k v) k' from rfl]
      rw [show lookupConns (e :: rest) k' =
            if e.1 = k' then e.2 else lookupConns rest k' from rfl]
      by_cases h2 : e.1 = k'
      · rw [if_pos h2, if_pos h2, if_neg (fun hx : k' = k => he (h2.trans hx))]
      · rw [if_neg h2, if_neg h2, ih]

theorem sumLens_setConns_self (l : List (String × List PoolConn)) (k : String) :
    ((setConns l k (lookupConns l k)).map (fun e => e.2.length)).sum =
      (l.map (fun e => e.2.length)).sum := by
  induction l with
  | nil => simp [setConns, lookupConns]
  | cons e rest ih =>
    by_cases he : e.1 = k
    · simp [setConns, he, lookupConns]
    · simp [setConns, he, lookupConns, ih]

/-! ## Helper lemmas about `connClose` -/

theorem connClose_fst_state (c : Conn) :
    (connClose c).1.state = ConnectionState.closed := by
  by_cases h : c.state = ConnectionState.closed <;> simp [connClose, h]

theorem connClose_fst_bytesSent (c : Conn) :
    (connClose c).1.bytesSent = c.bytesSent := by
  by_cases h : c.state = ConnectionState.closed <;> simp [connClose, h]

theorem connClose_fst_requestCount (c : Conn) :
    (connClose c).1.requestCount = c.requestCount := by
  by_cases h : c.state = ConnectionState.closed <;> simp [connClose, h]

/-! ## Claim theorems -/

/-- Claim C1, counterexample: a clean exchange (parser `DONE`, no peer close)
released on a connection whose request counter has reached
`max_requests_per_connection` (count 1, cap 1) still transitions
`Active → Idle`, although the claim requires the connection to be closed
whenever the count condition fails. -/
theorem claim_C1_counterexample :
    (releaseConnection
        ⟨ConnectionState.active, H11TheirState.done, none, 1, 1, 0, none, false⟩
        7).state = ConnectionState.idle ∧
    ¬((1 : Nat) < 1) := by decide

/-- Claim C1, amended: from `Active`, `_release_connection` moves the
connection to `Idle` exactly when `_can_reuse_connection` holds (parser cycle
complete and no peer close observed) and to `Closed` otherwise; the request
counter plays no part in the decision — replacing it by any value leaves the
released state unchanged.  The `max_requests_per_connection` cap is enforced
only at the entry of the next `handle_request` call. -/
theorem claim_C1_theorem (c : Conn) (now : Nat)
    (h : c.state = ConnectionState.active) :
    ((releaseConnection c now).state = ConnectionState.idle ↔
       canReuseConnection c = true) ∧
    (canReuseConnection c = false →
       (releaseConnection c now).state = ConnectionState.closed) ∧
    (∀ n : Nat,
       (releaseConnection { c with requestCount := n } now).state =
         (releaseConnection c now).state) := by
  have hreuse : ∀ n : Nat,
      canReuseConnection { c with requestCount := n, state := ConnectionState.active } =
        canReuseConnection c := by
    intro n; simp [canReuseConnection]
  cases hb : canReuseConnection c with
  | true => simp [releaseConnection, h, hb, hreuse]
  | false => simp [releaseConnection, h, hb, hreuse]

/-- Claim C1, witness for the amended theorem. -/
theorem claim_C1_witness :
    ((releaseConnection
        ⟨ConnectionState.active, H11TheirState.done, none, 0, 5, 0, none, false⟩
        3).state = ConnectionState.idle ↔
       canReuseConnection
         ⟨ConnectionState.active, H11TheirState.done, none, 0, 5, 0, none, false⟩ = true) ∧
    (canReuseConnection
       ⟨ConnectionState.active, H11TheirState.done, none, 0, 5, 0, none, false⟩ = false →
       (releaseConnection
         ⟨ConnectionState.active, H11TheirState.done, none, 0, 5, 0, none, false⟩
         3).state = ConnectionState.closed) ∧
    (∀ n : Nat,
       (releaseConnection
         { (⟨ConnectionState.active, H11TheirState.done, none, 0, 5, 0, none, false⟩ : Conn)
             with requestCount := n } 3).state =
       (releaseConnection
         ⟨ConnectionState.active, H11TheirState.done, none, 0, 5, 0, none, false⟩
         3).state) :=
  claim_C1_theorem _ 3 rfl

/-- Claim C2, counterexample: starting an exchange on an `Active` connection
whose incremented request counter exceeds the cap (count 1, cap 1) fails with
the max-requests error, not with the busy error the claim promises for every
`Active` connection. -/
theorem claim_C2_counterexample :
    (⟨ConnectionState.active, H11TheirState.sendBody, none, 1, 1, 0, none, false⟩ :
        Conn).state = ConnectionState.active ∧
    (handleRequestEntry
        ⟨ConnectionState.active, H11TheirState.sendBody, none, 1, 1, 0, none, false⟩).2 =
      EntryResult.failed HTTPError.maxRequestsExceeded ∧
    (handleRequestEntry
        ⟨ConnectionState.active, H11TheirState.sendBody, none, 1, 1, 0, none, false⟩).2 ≠
      EntryResult.failed HTTPError.connectionBusy := by decide

/-- Claim C2, amended: `handle_request` on a `Closed` connection fails
immediately with an error, and on an `Active` connection it fails with the
busy error provided the incremented request counter stays within
`max_requests_per_connection` (otherwise the max-requests error is raised
instead); in every failure case the call aborts before `_send_request`, so no
request bytes are written (`_bytes_sent` is unchanged). -/
theorem claim_C2_theorem (c : Conn) :
    (c.state = ConnectionState.closed →
       (∃ e, (handleRequestEntry c).2 = EntryResult.failed e) ∧
       (handleRequestEntry c).1.bytesSent = c.bytesSent) ∧
    (c.state = ConnectionState.active →
       (∃ e, (handleRequestEntry c).2 = EntryResult.failed e) ∧
       (handleRequestEntry c).1.bytesSent = c.bytesSent ∧
       (c.requestCount + 1 ≤ c.maxRequests →
          (handleRequestEntry c).2 = EntryResult.failed HTTPError.connectionBusy)) := by
  by_cases hcap : c.maxRequests < c.requestCount + 1
  · constructor
    · intro hs
      refine ⟨⟨HTTPError.maxRequestsExceeded, ?_⟩, ?_⟩ <;>
        simp [handleRequestEntry, hcap, connClose_fst_bytesSent]
    · intro hs
      refine ⟨⟨HTTPError.maxRequestsExceeded, ?_⟩, ?_, ?_⟩
      · simp [handleRequestEntry, hcap]
      · simp [handleRequestEntry, hcap, connClose_fst_bytesSent]
      · intro hle; exact absurd hle (by omega)
  · constructor
    · intro hs
      refine ⟨⟨HTTPError.connectionClosedErr, ?_⟩, ?_⟩ <;>
        simp [handleRequestEntry, hcap, hs]
    · intro hs
      refine ⟨⟨HTTPError.connectionBusy, ?_⟩, ?_, ?_⟩ <;>
        simp [handleRequestEntry, hcap, hs]

/-- Claim C2, witness for the amended theorem: a closed connection and a busy
connection within the cap, each aborting with no bytes written. -/
theorem claim_C2_witness :
    ((∃ e, (handleRequestEntry
        ⟨ConnectionState.closed, H11TheirState.idle, none, 0, 5, 9, none, true⟩).2 =
          EntryResult.failed e) ∧
     (handleRequestEntry
        ⟨ConnectionState.closed, H11TheirState.idle, none, 0, 5, 9, none, true⟩).1.bytesSent = 9) ∧
    (handleRequestEntry
        ⟨ConnectionState.active, H11TheirState.sendBody, none, 1, 5, 4, none, false⟩).2 =
      EntryResult.failed HTTPError.connectionBusy :=
  ⟨(claim_C2_theorem
      ⟨ConnectionState.closed, H11TheirState.idle, none, 0, 5, 9, none, true⟩).1 rfl,
   ((claim_C2_theorem
      ⟨ConnectionState.active, H11TheirState.sendBody, none, 1, 5, 4, none, false⟩).2
      rfl).2.2 (by decide)⟩

/-- Claim C9: closing a connection or a body stream after the first close is a
no-op — the connection stays `Closed` and its transport close is not
re-invoked; a second `ResponseStream.aclose` changes nothing and does not
signal the engine again; `RequestStream.aclose` is idempotent and never
errors. -/
theorem claim_C9_theorem :
    (∀ c : Conn,
       connClose (connClose c).1 = ((connClose c).1, false) ∧
       (connClose c).1.state = ConnectionState.closed) ∧
    (∀ (rs : ResponseStream) (c : Conn) (now now2 : Nat),
       responseStreamAclose (responseStreamAclose rs c now).1
           (responseStreamAclose rs c now).2.1 now2 =
         ((responseStreamAclose rs c now).1,
          (responseStreamAclose rs c now).2.1, false)) ∧
    (∀ s : RequestStream,
       requestStreamAclose (requestStreamAclose s) = requestStreamAclose s) := by
  refine ⟨?_, ?_, ?_⟩
  · intro c
    by_cases h : c.state = ConnectionState.closed <;> simp [connClose, h]
  · intro rs c now now2
    by_cases h : rs.closed <;> simp [responseStreamAclose, h]
  · intro s
    rfl

/-- Claim C10: `handle_request` increments `_request_count` at entry on every
call — the counter grows by one in each outcome, including the failure
outcomes raised before any I/O — and once the counter exceeds the cap, the
very next call fails with the max-requests error and leaves the connection
`Closed`, regardless of the connection's state. -/
theorem claim_C10_theorem (c : Conn) :
    (handleRequestEntry c).1.requestCount = c.requestCount + 1 ∧
    (c.maxRequests ≤ c.requestCount →
       (handleRequestEntry c).2 = EntryResult.failed HTTPError.maxRequestsExceeded ∧
       (handleRequestEntry c).1.state = ConnectionState.closed) := by
  constructor
  · by_cases hcap : c.maxRequests < c.requestCount + 1
    · simp [handleRequestEntry, hcap, connClose_fst_requestCount]
    · by_cases hs : c.state = ConnectionState.closed
      · simp [handleRequestEntry, hcap, hs]
      · by_cases ha : c.state = ConnectionState.active <;>
          simp [handleRequestEntry, hcap, hs, ha]
  · intro hle
    have hcap : c.maxRequests < c.requestCount + 1 := by omega
    simp [handleRequestEntry, hcap, connClose_fst_state]

/-- Claim C10, witness: a connection whose counter sits at the cap fails
closed on the next call, its counter still incremented. -/
theorem claim_C10_witness :
    (handleRequestEntry
        ⟨ConnectionState.idle, H11TheirState.idle, none, 2, 2, 0, some 1, false⟩).1.requestCount
      = 3 ∧
    ((2 : Nat) ≤ 2 →
       (handleRequestEntry
          ⟨ConnectionState.idle, H11TheirState.idle, none, 2, 2, 0, some 1, false⟩).2 =
         EntryResult.failed HTTPError.maxRequestsExceeded ∧
       (handleRequestEntry
          ⟨ConnectionState.idle, H11TheirState.idle, none, 2, 2, 0, some 1, false⟩).1.state =
         ConnectionState.closed) :=
  claim_C10_theorem ⟨ConnectionState.idle, H11TheirState.idle, none, 2, 2, 0, some 1, false⟩

/-- Claim C3, counterexample: the negative Content-Length value `-5` is not
treated as absent — `int(b"-5")` parses to `-5` — and the `ResponseStream`
constructor then rejects it with a `ValueError` at response-head time. -/
theorem claim_C3_counterexample :
    getContentLength [(contentLengthBytes, [45, 53])] = some (-5) ∧
    getContentLength [(contentLengthBytes, [45, 53])] ≠ none ∧
    receiveResponseStreamInit [(contentLengthBytes, [45, 53])] =
      Except.error PyError.valueErrorNegativeLength :=
  ⟨by decide, by decide, rfl⟩

/-- Claim C3, amended: a Content-Length value that `int()` cannot parse
(non-numeric) is treated as absent — the `ResponseBody` is constructed with
no declared length and no error is raised at response-head time — but a value
that parses to a negative integer is passed through, and `ResponseStream`
construction then fails with a `ValueError` at response-head time. -/
theorem claim_C3_theorem (v : List Nat) (hdrs : List (List Nat × List Nat)) :
    (pyIntParse v = none →
       getContentLength ((contentLengthBytes, v) :: hdrs) = none ∧
       receiveResponseStreamInit ((contentLengthBytes, v) :: hdrs) =
         Except.ok { contentLength := none,
                     chunked := isChunked ((contentLengthBytes, v) :: hdrs),
                     closed := false, bytesRead := 0 }) ∧
    (∀ l : Int, pyIntParse v = some l → l < 0 →
       receiveResponseStreamInit ((contentLengthBytes, v) :: hdrs) =
         Except.error PyError.valueErrorNegativeLength) := by
  have hname : bytesLower contentLengthBytes = contentLengthBytes := by decide
  constructor
  · intro hv
    constructor
    · simp [getContentLength, hname, hv]
    · simp [receiveResponseStreamInit, getContentLength, hname, hv, responseStreamInit]
  · intro l hv hneg
    simp [receiveResponseStreamInit, getContentLength, hname, hv, responseStreamInit, hneg]

/-- Claim C3, witness for the amended theorem: the non-numeric value `abc`
falls back to an absent length, the negative value `-5` is rejected. -/
theorem claim_C3_witness :
    (getContentLength [(contentLengthBytes, [97, 98, 99])] = none ∧
     receiveResponseStreamInit [(contentLengthBytes, [97, 98, 99])] =
       Except.ok { contentLength := none,
                   chunked := isChunked [(contentLengthBytes, [97, 98, 99])],
                   closed := false, bytesRead := 0 }) ∧
    receiveResponseStreamInit [(contentLengthBytes, [45, 53])] =
      Except.error PyError.valueErrorNegativeLength :=
  ⟨(claim_C3_theorem [97, 98, 99] []).1 (by decide),
   (claim_C3_theorem [45, 53] []).2 (-5) (by decide) (by decide)⟩

/-- Claim C4, code bug: the over-length check at `streams.py` lines 274-279
implements exactly the claimed behaviour and the unit tests exercise it (with
`_receive_body_chunk` mocked as an async generator), but the real iterator
glue makes it unreachable: `__anext__` stores the single `bytes`/`None`
result of one `_receive_body_chunk()` call as `self._iterator` and `next()`
on it raises `TypeError`.  So no engine-driven pull ever advances
`_bytes_read` or yields a chunk, and at the failing input — declared length
5, a six-byte chunk arriving on an active mid-body connection — the pull
fails with the `StreamError` wrapping the `TypeError`, not the over-length
protocol error (the connection does still end up `Closed`). -/
theorem claim_C4_theorem :
    (∀ (rs : ResponseStream) (c : Conn) (ev : BodyEvent) (now : Nat),
       (responseStreamAnext rs c ev now).1.bytesRead = rs.bytesRead ∧
       ∀ d, (responseStreamAnext rs c ev now).2.2 ≠ AnextResult.chunk d) ∧
    (responseStreamAnext ⟨some 5, false, false, 0⟩
        ⟨ConnectionState.active, H11TheirState.sendBody, none, 1, 5, 0, none, false⟩
        (BodyEvent.data [104, 101, 108, 108, 111, 33]) 0).2.2 =
      AnextResult.wrappedTypeError ∧
    (responseStreamAnext ⟨some 5, false, false, 0⟩
        ⟨ConnectionState.active, H11TheirState.sendBody, none, 1, 5, 0, none, false⟩
        (BodyEvent.data [104, 101, 108, 108, 111, 33]) 0).1.bytesRead = 0 ∧
    (responseStreamAnext ⟨some 5, false, false, 0⟩
        ⟨ConnectionState.active, H11TheirState.sendBody, none, 1, 5, 0, none, false⟩
        (BodyEvent.data [104, 101, 108, 108, 111, 33]) 0).2.1.state =
      ConnectionState.closed := by
  refine ⟨?_, by decide, by decide, by decide⟩
  intro rs c ev now
  by_cases h : rs.closed <;> cases ev <;>
    simp [responseStreamAnext, h, responseClosed, releaseConnection]

/-- Claim C5: closing a `ResponseBody` before end-of-body (the parser has not
reached `DONE`) signals the engine's `_response_closed` hook exactly once from
this call, and the engine — unable to reuse a connection whose response cycle
is incomplete — closes it: the state after the early close is `Closed`, never
`Idle`. -/
theorem claim_C5_theorem (rs : ResponseStream) (c : Conn) (now : Nat)
    (hopen : rs.closed = false) (hact : c.state = ConnectionState.active)
    (hnotdone : c.theirState ≠ H11TheirState.done) :
    (responseStreamAclose rs c now).2.2 = true ∧
    (responseStreamAclose rs c now).1.closed = true ∧
    (responseStreamAclose rs c now).2.1.state = ConnectionState.closed ∧
    (responseStreamAclose rs c now).2.1.state ≠ ConnectionState.idle := by
  have hreuse : canReuseConnection c = false := by
    simp [canReuseConnection, hnotdone]
  simp [responseStreamAclose, hopen, responseClosed, releaseConnection, hact, hreuse]

/-- Claim C5, witness: a stream abandoned mid-body. -/
theorem claim_C5_witness :
    (responseStreamAclose ⟨some 9, false, false, 3⟩
        ⟨ConnectionState.active, H11TheirState.sendBody, none, 1, 5, 0, none, false⟩
        4).2.2 = true ∧
    (responseStreamAclose ⟨some 9, false, false, 3⟩
        ⟨ConnectionState.active, H11TheirState.sendBody, none, 1, 5, 0, none, false⟩
        4).1.closed = true ∧
    (responseStreamAclose ⟨some 9, false, false, 3⟩
        ⟨ConnectionState.active, H11TheirState.sendBody, none, 1, 5, 0, none, false⟩
        4).2.1.state = ConnectionState.closed ∧
    (responseStreamAclose ⟨some 9, false, false, 3⟩
        ⟨ConnectionState.active, H11TheirState.sendBody, none, 1, 5, 0, none, false⟩
        4).2.1.state ≠ ConnectionState.idle :=
  claim_C5_theorem ⟨some 9, false, false, 3⟩
    ⟨ConnectionState.active, H11TheirState.sendBody, none, 1, 5, 0, none, false⟩
    4 rfl rfl (by decide)

/-- Claim C6, counterexample: constructing a `RequestStream` over a
user-supplied async producer with `declared_length = 5` is rejected
immediately with a `ValueError`, although the claim says such a construction
succeeds and mismatches surface only at drain time. -/
theorem claim_C6_counterexample :
    requestStreamInit ReqData.asyncIterable (some 5) false =
      Except.error PyError.valueErrorLengthMismatch :=
  rfl

/-- Claim C6, amended: with a non-negative declared length, a statically-sized
input (single buffer or list of buffers) is rejected at construction exactly
when its byte sum differs from the declared length; a user-supplied async
producer is always rejected at construction, because its length is recorded
as `-1`, which never equals a non-negative declared length — no drain-time
length check exists. -/
theorem claim_C6_theorem (data : ReqData) (l : Int) (ch : Bool) (hl : 0 ≤ l) :
    (calculateActualLength data ≠ l →
       requestStreamInit data (some l) ch =
         Except.error PyError.valueErrorLengthMismatch) ∧
    (calculateActualLength data = l →
       requestStreamInit data (some l) ch =
         Except.ok { data := data, contentLength := some l, chunked := ch,
                     closed := false, hasIterator := false }) ∧
    (data = ReqData.asyncIterable →
       requestStreamInit data (some l) ch =
         Except.error PyError.valueErrorLengthMismatch) := by
  have hnn : ¬ l < 0 := not_lt.mpr hl
  refine ⟨?_, ?_, ?_⟩
  · intro hne
    simp [requestStreamInit, hnn, hne]
  · intro heq
    simp [requestStreamInit, hnn, heq]
  · intro hdata
    subst hdata
    have hne : calculateActualLength ReqData.asyncIterable ≠ l := by
      simp [calculateActualLength]; omega
    simp [requestStreamInit, hnn, hne]

/-- Claim C6, witness: a two-byte buffer against declared lengths 3
(mismatch, rejected) and 2 (accepted), and an async producer against
declared length 5 (rejected). -/
theorem claim_C6_witness :
    requestStreamInit (ReqData.bytes [7, 8]) (some 3) false =
      Except.error PyError.valueErrorLengthMismatch ∧
    requestStreamInit (ReqData.bytes [7, 8]) (some 2) false =
      Except.ok { data := ReqData.bytes [7, 8], contentLength := some 2,
                  chunked := false, closed := false, hasIterator := false } ∧
    requestStreamInit ReqData.asyncIterable (some 5) true =
      Except.error PyError.valueErrorLengthMismatch :=
  ⟨(claim_C6_theorem (ReqData.bytes [7, 8]) 3 false (by decide)).1 (by decide),
   (claim_C6_theorem (ReqData.bytes [7, 8]) 2 false (by decide)).2.1 (by decide),
   (claim_C6_theorem ReqData.asyncIterable 5 true (by decide)).2.2 rfl⟩

/-- Claim C7: when the origin's (non-expired) connection count has reached
`max_connections_per_host` and none of its connections is idle,
`get_connection` fails with the per-host capacity error — no matter how much
global capacity remains — creating no connection and leaving every host list
and the total connection count unchanged. -/
theorem claim_C7_theorem (p : Pool) (hostKey : String) (now : Nat) (fresh : PoolConn)
    (hopen : p.closed = false)
    (hnoexp : ∀ c ∈ lookupConns p.conns hostKey,
       poolHasExpired c p.keepAliveTimeout now = false)
    (hnoidle : ∀ c ∈ lookupConns p.conns hostKey, poolIsIdle c = false)
    (hcap : p.maxPerHost ≤ (lookupConns p.conns hostKey).length) :
    (getConnection p hostKey now fresh).2 = GetConnResult.errPerHost ∧
    (∀ e, (getConnection p hostKey now fresh).2 ≠ GetConnResult.created e) ∧
    (∀ k, lookupConns (getConnection p hostKey now fresh).1.conns k =
       lookupConns p.conns k) ∧
    totalConnections (getConnection p hostKey now fresh).1 = totalConnections p := by
  have hfilter : (lookupConns p.conns hostKey).filter
      (fun c => !poolHasExpired c p.keepAliveTimeout now) =
        lookupConns p.conns hostKey := by
    apply List.filter_eq_self.mpr
    intro a ha
    simp [hnoexp a ha]
  have hfind : (lookupConns p.conns hostKey).find? poolIsIdle = none := by
    apply List.find?_eq_none.mpr
    intro x hx
    simp [hnoidle x hx]
  have hres : getConnection p hostKey now fresh =
      ({ p with conns := setConns p.conns hostKey (lookupConns p.conns hostKey) },
       GetConnResult.errPerHost) := by
    simp [getConnection, hopen, hfilter, hfind, hcap]
  refine ⟨by rw [hres], fun e => by rw [hres]; simp, fun k => ?_, ?_⟩
  · rw [hres, lookupConns_setConns]
    by_cases hk : k = hostKey
    · subst hk; simp
    · rw [if_neg hk]
  · rw [hres]
    simp [totalConnections, sumLens_setConns_self]

/-- Claim C7, witness: per-host cap 1 reached by one active connection while
nine global slots remain free. -/
theorem claim_C7_witness :
    (getConnection
        ⟨[("h:1", [⟨0, ConnectionState.active, none⟩])], 10, 1, 100, false⟩
        "h:1" 5 ⟨9, ConnectionState.new, none⟩).2 = GetConnResult.errPerHost ∧
    (∀ e, (getConnection
        ⟨[("h:1", [⟨0, ConnectionState.active, none⟩])], 10, 1, 100, false⟩
        "h:1" 5 ⟨9, ConnectionState.new, none⟩).2 ≠ GetConnResult.created e) ∧
    (∀ k, lookupConns (getConnection
        ⟨[("h:1", [⟨0, ConnectionState.active, none⟩])], 10, 1, 100, false⟩
        "h:1" 5 ⟨9, ConnectionState.new, none⟩).1.conns k =
      lookupConns [("h:1", [⟨0, ConnectionState.active, none⟩])] k) ∧
    totalConnections (getConnection
        ⟨[("h:1", [⟨0, ConnectionState.active, none⟩])], 10, 1, 100, false⟩
        "h:1" 5 ⟨9, ConnectionState.new, none⟩).1 =
      totalConnections ⟨[("h:1", [⟨0, ConnectionState.active, none⟩])], 10, 1, 100, false⟩ :=
  claim_C7_theorem
    ⟨[("h:1", [⟨0, ConnectionState.active, none⟩])], 10, 1, 100, false⟩
    "h:1" 5 ⟨9, ConnectionState.new, none⟩ rfl (by decide) (by decide) (by decide)

/-- Claim C8, counterexample: an origin with two idle connections, the second
(`idle_since = 5`) more recently used than the first (`idle_since = 1`);
`get_connection` returns the first in list order, not the most-recently-used
one the claim requires. -/
theorem claim_C8_counterexample :
    (getConnection
        ⟨[("h:1", [⟨0, ConnectionState.idle, some 1⟩, ⟨1, ConnectionState.idle, some 5⟩])],
          10, 5, 100, false⟩
        "h:1" 10 ⟨9, ConnectionState.new, none⟩).2 =
      GetConnResult.reused ⟨0, ConnectionState.idle, some 1⟩ ∧
    specMostRecentlyUsedIdle
        (lookupConns
          [("h:1", [⟨0, ConnectionState.idle, some 1⟩, ⟨1, ConnectionState.idle, some 5⟩])]
          "h:1") =
      some ⟨1, ConnectionState.idle, some 5⟩ ∧
    (⟨0, ConnectionState.idle, some 1⟩ : PoolConn) ≠ ⟨1, ConnectionState.idle, some 5⟩ := by
  decide

/-- Claim C8, amended: `get_connection` returns the first idle connection in
the origin's list order.  Since new connections are appended at the tail and
`return_connection` never reorders the list (an idle connection is left in
place), this reuses the oldest idle connection first (FIFO within an origin),
not the most-recently-used one. -/
theorem claim_C8_theorem (p : Pool) (hostKey : String) (now : Nat)
    (fresh : PoolConn) (c : PoolConn)
    (hopen : p.closed = false)
    (hfind : ((lookupConns p.conns hostKey).filter
        (fun x => !poolHasExpired x p.keepAliveTimeout now)).find? poolIsIdle =
          some c) :
    (getConnection p hostKey now fresh).2 = GetConnResult.reused c ∧
    (∀ r : PoolConn, poolIsIdle r = true →
       lookupConns (returnConnection p r hostKey).conns hostKey =
         lookupConns p.conns hostKey) := by
  constructor
  · simp [getConnection, hopen, hfind]
  · intro r hr
    have hstate : r.state = ConnectionState.idle := by
      simpa [poolIsIdle] using hr
    simp [returnConnection, hopen, poolIsIdle, hstate, lookupConns_setConns]

/-- Claim C8, witness for the amended theorem: a single idle connection is
reused, and returning an idle connection leaves the list unchanged. -/
theorem claim_C8_witness :
    (getConnection ⟨[("h:1", [⟨0, ConnectionState.idle, some 2⟩])], 10, 5, 100, false⟩
        "h:1" 4 ⟨9, ConnectionState.new, none⟩).2 =
      GetConnResult.reused ⟨0, ConnectionState.idle, some 2⟩ ∧
    (∀ r : PoolConn, poolIsIdle r = true →
       lookupConns (returnConnection
           ⟨[("h:1", [⟨0, ConnectionState.idle, some 2⟩])], 10, 5, 100, false⟩
           r "h:1").conns "h:1" =
         lookupConns [("h:1", [⟨0, ConnectionState.idle, some 2⟩])] "h:1") :=
  claim_C8_theorem
    ⟨[("h:1", [⟨0, ConnectionState.idle, some 2⟩])], 10, 5, 100, false⟩
    "h:1" 4 ⟨9, ConnectionState.new, none⟩ ⟨0, ConnectionState.idle, some 2⟩
    rfl (by decide)

end CHttpCore

